import Mathlib

/-!
Shallow embedding of the scam-detection microservice core
(`app/detection/pattern_matcher.py`, `app/detection/behavioral_detector.py`,
`app/detection/integrated_detector.py`, `app/jobs/periodic_scan.py`,
`app/jobs/nightly_summary.py`, `app/config.py`).

Python floats carrying confidences and scores are modelled as rationals
(`ℚ`); machine strings as Lean `String`.  Regular-expression matching is
external to the algorithms under study, so a rule carries an abstract
boolean matcher `String → Bool` (the source lowercases the message and
matches case-insensitively; that is folded into the abstract matcher).
Fallible external calls (message fetch, AI reviewer) are modelled as
`Except String` values supplied as parameters.
-/

namespace ScamDetection

/-- Rational-valued suspicious-score accumulation needs max/min on ℚ only. -/
abbrev Q := ℚ

/-! ## Behavioral detector (`app/detection/behavioral_detector.py`) -/

/-- Result dictionary returned by `BehavioralDetector.check`. -/
structure BehavioralResult where
  is_suspicious : Bool
  confidence : Q
  flags : List String
  category : Option String
  deriving Repr, DecidableEq

/-- `needle.isPrefixOf`-based substring test on character lists, modelling
Python's `in` operator for strings. -/
def listContainsSub (needle : List Char) : List Char → Bool
  | [] => needle.isEmpty
  | c :: rest => needle.isPrefixOf (c :: rest) || listContainsSub needle rest

/-- Python `needle in haystack` for strings. -/
def strContains (haystack needle : String) : Bool :=
  listContainsSub needle.data haystack.data

/-- Python `str.lower()`. -/
def strLower (s : String) : String := ⟨s.data.map Char.toLower⟩

/-- The fixed suspicious-keyword list from `BehavioralDetector.check`. -/
def suspicious_keywords : List String :=
  ["congratulations", "winner", "free money", "act now", "limited time",
   "expires", "verify account", "suspended", "locked"]

/-- Number of characters of `s` for which Python `c.isupper()` holds,
modelled with `Char.isUpper`. -/
def upperCount (s : String) : Nat :=
  (s.data.filter Char.isUpper).length

/-- `from_number.replace("+", "").replace("-", "")`: every occurrence of
`+` and `-` removed. -/
def stripPlusMinus (s : String) : List Char :=
  s.data.filter (fun c => !(c == '+' || c == '-'))

/-- The six independently evaluated checks of `BehavioralDetector.check`,
in source order, as the list of (flag name, weight) pairs of the triggered
conditions.  The sequential `flags[...] = True; suspicion_score += w`
accumulation of the source is exactly: flag names in trigger order, score
the sum of the triggered weights. -/
def BehavioralDetector.triggered (known_scam_numbers : List String)
    (from_number message_text : String) : List (String × Q) :=
  -- Check 1: known scam number
  (if known_scam_numbers.contains from_number
   then [("known_scammer", 9/10)] else [])
  -- Check 2: very short message with a link-like substring
  ++ (if message_text.length < 20 &&
        (["http", "bit.ly", "click"].any fun kw =>
          strContains (strLower message_text) kw)
      then [("short_message_with_link", 6/10)] else [])
  -- Check 3: excessive capitalization (ratio over total length)
  ++ (if message_text.length > 10 &&
        decide ((upperCount message_text : Q) / (message_text.length : Q)
          > 1/2)
      then [("excessive_caps", 4/10)] else [])
  -- Check 4: three or more exclamation marks
  ++ (if message_text.data.count '!' ≥ 3
      then [("excessive_exclamation", 3/10)] else [])
  -- Check 5: at least two suspicious keywords
  ++ (if (suspicious_keywords.filter fun kw =>
          strContains (strLower message_text) kw).length ≥ 2
      then [("multiple_suspicious_keywords", 5/10)] else [])
  -- Check 6: len(from_number.replace("+","").replace("-","")) > 11
  ++ (if (stripPlusMinus from_number).length > 11
      then [("international_number", 2/10)] else [])

/-- `BehavioralDetector.check(from_number, message_text, account_id)`.
The detector's only state is `known_scam_numbers`, passed explicitly. -/
def BehavioralDetector.check (known_scam_numbers : List String)
    (from_number message_text account_id : String) : BehavioralResult :=
  let _ := account_id
  let checks := BehavioralDetector.triggered known_scam_numbers
    from_number message_text
  let suspicion_score := (checks.map Prod.snd).sum
  let confidence := min 1 suspicion_score
  let is_suspicious := confidence ≥ 4/10
  { is_suspicious := is_suspicious
    confidence := confidence
    flags := checks.map Prod.fst
    category := if is_suspicious then some "behavioral_analysis" else none }

/-! ## Pattern matcher (`app/detection/pattern_matcher.py`) -/

/-- One rule of the pattern library: the regex is abstracted into a
boolean matcher on the (lowercased) message. -/
structure Rule where
  test : String → Bool
  confidence : Q
  description : String

/-- A pattern library: categories in insertion order, each with its list of
rules in registration order (Python dicts iterate in insertion order). -/
abbrev Patterns := List (String × List Rule)

/-- Result dictionary returned by `PatternMatcher.check`. -/
structure PatternResult where
  is_match : Bool
  category : Option String
  confidence : Q
  patterns : List String

/-- The library flattened to (category, rule) pairs in iteration order. -/
def flatRules (pats : Patterns) : List (String × Rule) :=
  pats.flatMap fun cr => cr.2.map fun r => (cr.1, r)

/-- The body of the double loop in `PatternMatcher.check`: accumulates
matched descriptions, and tracks the running maximum confidence and its
category with a strict `>` update. -/
def checkStep (message : String) (acc : List String × Q × Option String)
    (cr : String × Rule) : List String × Q × Option String :=
  if cr.2.test message then
    if cr.2.confidence > acc.2.1 then
      (acc.1 ++ [cr.2.description], cr.2.confidence, some cr.1)
    else
      (acc.1 ++ [cr.2.description], acc.2.1, acc.2.2)
  else acc

/-- `PatternMatcher.check(message)`. -/
def PatternMatcher.check (pats : Patterns) (message : String) :
    PatternResult :=
  let acc := (flatRules pats).foldl (checkStep message) ([], 0, none)
  { is_match := acc.1.length > 0
    category := acc.2.2
    confidence := acc.2.1
    patterns := acc.1 }

/-- `PatternMatcher.add_pattern(category, pattern, confidence, description)`:
appends the rule to its category, creating the category at the end if
absent. -/
def PatternMatcher.add_pattern (pats : Patterns) (category : String)
    (rule : Rule) : Patterns :=
  if pats.any fun cr => cr.1 == category then
    pats.map fun cr => if cr.1 == category then (cr.1, cr.2 ++ [rule]) else cr
  else
    pats ++ [(category, [rule])]

/-- The rules of the library that match a message, in iteration order. -/
def matchingRules (pats : Patterns) (msg : String) : List (String × Rule) :=
  (flatRules pats).filter fun p => p.2.test msg

/-- Running maximum of the confidences of the matching rules, starting
from `c` (the loop's `max_confidence` accumulator). -/
def maxMatchConf (msg : String) : Q → List (String × Rule) → Q
  | c, [] => c
  | c, p :: rest =>
    if p.2.test msg then maxMatchConf msg (max c p.2.confidence) rest
    else maxMatchConf msg c rest

/-- A library whose single rule matches everything with confidence 0. -/
def zeroConfPats : Patterns :=
  [("cat0", [{ test := fun _ => true, confidence := 0,
               description := "always" }])]

/-- A library with two rules of equal confidence that both match
`"you win"`; the first in iteration order is in category `catA`. -/
def tiedPats : Patterns :=
  [("catA", [{ test := fun s => strContains s "win", confidence := 1/2,
               description := "dA" }]),
   ("catB", [{ test := fun _ => true, confidence := 1/2,
               description := "dB" }])]

/-! ## Configuration (`app/config.py`, `Settings`) -/

/-- The detection-relevant configuration fields of `Settings`. -/
structure Settings where
  risk_threshold_critical : Q
  risk_threshold_high : Q
  risk_threshold_medium : Q
  max_ai_reviews_per_run : Nat
  max_ai_reviews_daily : Nat

/-- The default values from `app/config.py`. -/
def defaultSettings : Settings :=
  { risk_threshold_critical := 9/10
    risk_threshold_high := 7/10
    risk_threshold_medium := 4/10
    max_ai_reviews_per_run := 100
    max_ai_reviews_daily := 20 }

/-! ## Integrated detector (`app/detection/integrated_detector.py`) -/

/-- `IntegratedScamDetector._calculate_risk_score`. -/
def calculate_risk_score (pattern_result : PatternResult)
    (behavioral_result : BehavioralResult) : Q :=
  let score : Q := 0
  let score := if pattern_result.is_match
    then score + pattern_result.confidence * 60 else score
  let score := if behavioral_result.is_suspicious
    then score + behavioral_result.confidence * 40 else score
  min 100 score

/-- `IntegratedScamDetector._determine_risk_level`. -/
def determine_risk_level (s : Settings) (risk_score : Q) : String :=
  if risk_score ≥ s.risk_threshold_critical * 100 then "CRITICAL"
  else if risk_score ≥ s.risk_threshold_high * 100 then "HIGH"
  else if risk_score ≥ s.risk_threshold_medium * 100 then "MEDIUM"
  else "LOW"

/-- `IntegratedScamDetector._determine_detection_method`. -/
def determine_detection_method (pattern_result : PatternResult)
    (behavioral_result : BehavioralResult) : String :=
  if pattern_result.is_match && behavioral_result.is_suspicious then "hybrid"
  else if pattern_result.is_match then "pattern_match"
  else if behavioral_result.is_suspicious then "behavioral"
  else "unknown"

/-- An incoming message, as the keyword arguments of `analyze_message`. -/
structure Message where
  id : String
  account_id : String
  message : String
  host_number : String
  remote_number : String
  inserted_at : String
  deriving Repr, DecidableEq

/-- The result dictionary built by `analyze_message` when a scam is
detected.  `behavioral_flags` keeps the list of set flag names. -/
structure DetectionResult where
  sms_id : String
  account_id : String
  message_text : String
  from_number : String
  to_number : String
  sent_at : String
  is_scam : Bool
  risk_level : String
  risk_score : Q
  detection_method : String
  detection_category : Option String
  pattern_matched : List String
  behavioral_flags : List String
  deriving Repr, DecidableEq

/-- `IntegratedScamDetector.analyze_message`: runs the pattern matcher and
the behavioral detector, returns `none` when neither fires, otherwise the
combined detection dictionary. -/
def analyze_message (s : Settings) (pats : Patterns)
    (known_scam_numbers : List String) (m : Message) :
    Option DetectionResult :=
  let pattern_result := PatternMatcher.check pats m.message
  let behavioral_result := BehavioralDetector.check known_scam_numbers
    m.host_number m.message m.account_id
  let is_scam := pattern_result.is_match || behavioral_result.is_suspicious
  if is_scam then
    let risk_score := calculate_risk_score pattern_result behavioral_result
    some
      { sms_id := m.id
        account_id := m.account_id
        message_text := m.message
        from_number := m.host_number
        to_number := m.remote_number
        sent_at := m.inserted_at
        is_scam := true
        risk_level := determine_risk_level s risk_score
        risk_score := risk_score
        detection_method :=
          determine_detection_method pattern_result behavioral_result
        detection_category :=
          pattern_result.category.orElse fun _ => behavioral_result.category
        pattern_matched := pattern_result.patterns
        behavioral_flags := behavioral_result.flags }
  else none

/-! ## Periodic scan job (`app/jobs/periodic_scan.py`) -/

/-- A persisted `ScamFlag` row (the columns the scan job writes). -/
structure ScamFlagRow where
  sms_id : String
  account_id : String
  is_scam : Bool
  risk_level : String
  risk_score : Q
  detection_method : String
  detection_category : Option String
  message_text : String
  from_number : String
  to_number : String
  review_status : Option String
  reviewed : Bool
  deriving Repr, DecidableEq

/-- Building a `ScamFlag` row from a detection-result dictionary, with
`review_status = "pending"` (step 3 of `periodic_scan_job`). -/
def mkScamFlag (r : DetectionResult) : ScamFlagRow :=
  { sms_id := r.sms_id
    account_id := r.account_id
    is_scam := r.is_scam
    risk_level := r.risk_level
    risk_score := r.risk_score
    detection_method := r.detection_method
    detection_category := r.detection_category
    message_text := r.message_text
    from_number := r.from_number
    to_number := r.to_number
    review_status := some "pending"
    reviewed := false }

/-- One iteration of step 2 of `periodic_scan_job`: a per-message
exception (`analyze m = .error e`) is caught and the message skipped; a
`none` result (no scam) is not collected. -/
def scanStep (analyze : Message → Except String (Option DetectionResult))
    (acc : List DetectionResult) (m : Message) : List DetectionResult :=
  match analyze m with
  | .ok (some r) => acc ++ [r]
  | .ok none => acc
  | .error _ => acc

/-- Step 2 of `periodic_scan_job`: run the detector on every fetched
message, collecting the non-`none` results of the messages whose analysis
did not raise. -/
def scanResults (analyze : Message → Except String (Option DetectionResult))
    (messages : List Message) : List DetectionResult :=
  messages.foldl (scanStep analyze) []

/-- Step 3 of `periodic_scan_job`: for each detection result, skip it when
a `ScamFlag` with the same `sms_id` already exists, otherwise append a new
pending flag.  The existence check sees rows added earlier in the same
loop (the session autoflushes pending inserts before each query). -/
def writeFlags (db : List ScamFlagRow) (results : List DetectionResult) :
    List ScamFlagRow :=
  results.foldl (fun db' r =>
    if db'.any fun f => f.sms_id == r.sms_id then db'
    else db' ++ [mkScamFlag r]) db

/-- The finalized `ScamDetectionRun` record. -/
structure RunRecord where
  run_type : String
  status : String
  messages_scanned : Nat
  scams_detected : Nat
  error_message : Option String
  deriving Repr, DecidableEq

/-- Outcome of one `periodic_scan_job` invocation: the finalized run row,
the `ScamFlag` table afterwards, and the exception re-raised to the
trigger layer, if any. -/
structure ScanOutcome where
  run : RunRecord
  flags : List ScamFlagRow
  raised : Option String
  deriving Repr, DecidableEq

/-- `periodic_scan_job`: the run row starts `running`; the message fetch
and the finalizing commit may raise (modelled by the `Except` inputs), in
which case the outer handler finalizes the run to `failed` with the
captured error text and re-raises.  Otherwise every message is analyzed
(per-message errors skipped), new flags are written with the per-`sms_id`
dedup check, and the run is finalized to `completed` with
`scams_detected = len(detection_results)`. -/
def periodic_scan_job
    (fetch : Except String (List Message))
    (analyze : Message → Except String (Option DetectionResult))
    (finalize : Except String Unit)
    (db : List ScamFlagRow) : ScanOutcome :=
  let running : RunRecord :=
    { run_type := "periodic", status := "running", messages_scanned := 0
      scams_detected := 0, error_message := none }
  match fetch with
  | .error e =>
      { run := { running with status := "failed", error_message := some e }
        flags := db
        raised := some e }
  | .ok messages =>
    let detection_results := scanResults analyze messages
    let db' := writeFlags db detection_results
    match finalize with
    | .error e =>
        { run := { running with status := "failed", error_message := some e }
          flags := db'
          raised := some e }
    | .ok _ =>
        { run := { running with
            status := "completed"
            messages_scanned := messages.length
            scams_detected := detection_results.length }
          flags := db'
          raised := none }

/-! ## Nightly summary job (`app/jobs/nightly_summary.py`) -/

/-- `false_positive_rate` as computed in step 2 of `nightly_summary_job`:
a PERCENTAGE — `len(false_positives) / len(reviewed_flags) * 100` when any
flag is reviewed, else `0.0`. -/
def false_positive_rate (scam_flags : List ScamFlagRow) : Q :=
  let reviewed_flags := scam_flags.filter fun f => f.reviewed
  let false_positives := reviewed_flags.filter fun f =>
    f.review_status == some "false_positive"
  if reviewed_flags.isEmpty then 0
  else (false_positives.length : Q) / (reviewed_flags.length : Q) * 100

/-- One recommended action item from `_generate_action_items`. -/
structure ActionItem where
  priority : String
  action : String
  recommendation : String
  deriving Repr, DecidableEq

/-- The threshold-tuning action item (emitted on a high FP rate). -/
def tuneThresholdsItem : ActionItem :=
  { priority := "high"
    action := "High false positive rate"
    recommendation := "Review and tune detection thresholds" }

/-- `_generate_action_items(total_scams, false_positive_rate, new_patterns)`. -/
def generate_action_items (total_scams : Nat) (fp_rate : Q)
    (new_patterns_count : Nat) : List ActionItem :=
  let actions : List ActionItem := []
  let actions := if total_scams > 100 then actions ++
    [{ priority := "high"
       action := "High volume of scams detected"
       recommendation :=
         "Review detection patterns and consider additional filters" }]
    else actions
  let actions := if fp_rate > 1/2 then actions ++ [tuneThresholdsItem]
    else actions
  let actions := if new_patterns_count > 0 then actions ++
    [{ priority := "medium"
       action := toString new_patterns_count ++ " new patterns identified"
       recommendation := "Review and integrate new patterns into detector" }]
    else actions
  actions

/-- The structured insight returned by `AnthropicClient.analyze_scam`
(`new_pattern_detected` truthiness and the `confidence` default 0 of
`insight.get("confidence", 0)` are resolved into plain fields). -/
structure Insight where
  new_pattern_detected : Bool
  confidence : Q
  scam_type : Option String
  pattern_regex : Option String
  deriving Repr, DecidableEq

/-- One entry of `new_patterns` recorded by step 3 of
`nightly_summary_job`. -/
structure PatternInfo where
  pattern : Option String
  scam_type : Option String
  confidence : Q
  example_message : String
  deriving Repr, DecidableEq

/-- Python `flag.message_text[:100]`: the first 100 characters. -/
def truncate100 (s : String) : String := ⟨s.data.take 100⟩

/-- Step 3 of `nightly_summary_job`, the per-flag loop: a reviewer call
failure (`review f = .error e`) is caught and that flag skipped; a pattern
entry is recorded exactly when `new_pattern_detected` holds and
`confidence > 0.8`. -/
def collectNewPatterns (review : ScamFlagRow → Except String Insight) :
    List ScamFlagRow → List PatternInfo
  | [] => []
  | f :: rest =>
    (match review f with
     | .error _ => []
     | .ok insight =>
       if insight.new_pattern_detected && insight.confidence > 8/10 then
         [{ pattern := insight.pattern_regex
            scam_type := insight.scam_type
            confidence := insight.confidence
            example_message := truncate100 f.message_text }]
       else []) ++ collectNewPatterns review rest

/-- The selection feeding the AI-review loop: unreviewed CRITICAL/HIGH
flags, in query order, truncated to `max_ai_reviews_daily`. -/
def highRiskUnreviewed (s : Settings) (scam_flags : List ScamFlagRow) :
    List ScamFlagRow :=
  (scam_flags.filter fun f =>
    (f.risk_level == "CRITICAL" || f.risk_level == "HIGH") && !f.reviewed
  ).take s.max_ai_reviews_daily

/-- The fields of the persisted `NightlyScamReport` that the claims are
about. -/
structure NightlyReport where
  total_scams_detected : Nat
  false_positive_rate : Q
  new_patterns_learned : List PatternInfo
  action_items : List ActionItem
  deriving Repr, DecidableEq

/-- The pure computation of `nightly_summary_job` over the day's loaded
flags and the reviewer's responses (steps 2, 3 and 5). -/
def nightly_summary_job (s : Settings)
    (review : ScamFlagRow → Except String Insight)
    (scam_flags : List ScamFlagRow) : NightlyReport :=
  let total_scams := scam_flags.length
  let fp_rate := false_positive_rate scam_flags
  let new_patterns := collectNewPatterns review (highRiskUnreviewed s scam_flags)
  { total_scams_detected := total_scams
    false_positive_rate := fp_rate
    new_patterns_learned := new_patterns
    action_items := generate_action_items total_scams fp_rate
      new_patterns.length }

/-! ## Specification-side definitions

These follow the spec's words, for comparison against the embedded code. -/

/-- clamp(lo, hi, x). -/
def clamp (lo hi x : Q) : Q := max lo (min hi x)

/-- The spec's risk-score formula:
`clamp(0,100, rule_confidence × 60 + behavioral_confidence × 40)` with a
confidence term of 0 when that signal did not fire. -/
def specRiskScore (pattern_result : PatternResult)
    (behavioral_result : BehavioralResult) : Q :=
  clamp 0 100
    ((if pattern_result.is_match then pattern_result.confidence else 0) * 60
      + (if behavioral_result.is_suspicious then behavioral_result.confidence
         else 0) * 40)

/-- The claim's false-positive rate, following the spec's words: the plain
fraction `reviewed_false_positive_count / reviewed_count`, 0 when no flag
is reviewed (no percentage scaling). -/
def claimedFalsePositiveRate (scam_flags : List ScamFlagRow) : Q :=
  let reviewed_flags := scam_flags.filter fun f => f.reviewed
  let false_positives := reviewed_flags.filter fun f =>
    f.review_status == some "false_positive"
  if reviewed_flags.isEmpty then 0
  else (false_positives.length : Q) / (reviewed_flags.length : Q)

/-- A reviewed flag confirmed as a real scam. -/
def confirmedFlag : ScamFlagRow :=
  { sms_id := "s1", account_id := "a1", is_scam := true,
    risk_level := "HIGH", risk_score := 48,
    detection_method := "pattern_match",
    detection_category := some "phishing", message_text := "t1",
    from_number := "f1", to_number := "t1",
    review_status := some "confirmed_scam", reviewed := true }

/-- A reviewed flag judged a false positive. -/
def falsePositiveFlag : ScamFlagRow :=
  { sms_id := "s2", account_id := "a1", is_scam := true,
    risk_level := "HIGH", risk_score := 48,
    detection_method := "pattern_match",
    detection_category := some "phishing", message_text := "t2",
    from_number := "f2", to_number := "t2",
    review_status := some "false_positive", reviewed := true }

/-- A day with two reviewed flags, one of them a false positive. -/
def c5flags : List ScamFlagRow := [confirmedFlag, falsePositiveFlag]

/-- Number of digit characters in a sender address (the spec's
"sender address digit-count"). -/
def digitCount (s : String) : Nat :=
  (s.data.filter Char.isDigit).length

/-- The spec's behavioral-confidence formula, parametric in the sixth
(sender-address) condition: `min(1.0, sum of the weights of the
independently-evaluated triggered conditions)`. -/
def behavioralWeightSum (known_scam_numbers : List String)
    (from_number message_text : String) (sender_cond : Prop)
    [Decidable sender_cond] : Q :=
  min 1
    ((if known_scam_numbers.contains from_number then (9 : Q)/10 else 0)
     + (if message_text.length < 20 &&
          (["http", "bit.ly", "click"].any fun kw =>
            strContains (strLower message_text) kw)
        then (6 : Q)/10 else 0)
     + (if message_text.length > 10 &&
          decide ((upperCount message_text : Q) / (message_text.length : Q)
            > 1/2)
        then (4 : Q)/10 else 0)
     + (if message_text.data.count '!' ≥ 3 then (3 : Q)/10 else 0)
     + (if (suspicious_keywords.filter fun kw =>
            strContains (strLower message_text) kw).length ≥ 2
        then (5 : Q)/10 else 0)
     + (if sender_cond then (2 : Q)/10 else 0))

/-- The claim's behavioral confidence, following the spec's words: the
sixth condition is "sender address digit-count > 11". -/
def behavioralConfidenceClaimed (known_scam_numbers : List String)
    (from_number message_text : String) : Q :=
  behavioralWeightSum known_scam_numbers from_number message_text
    (digitCount from_number > 11)

/-- The behavioral confidence as the code computes it: the sixth condition
is "length of the sender address with `+` and `-` removed exceeds 11". -/
def behavioralConfidenceAmended (known_scam_numbers : List String)
    (from_number message_text : String) : Q :=
  behavioralWeightSum known_scam_numbers from_number message_text
    ((stripPlusMinus from_number).length > 11)

/-! ## Concrete evaluation inputs -/

/-- A short message from a known-bad sender (empty rule library). -/
def msgHi : Message :=
  { id := "m1", account_id := "a1", message := "hi",
    host_number := "+15550001111", remote_number := "+15550002222",
    inserted_at := "2026-10-11T00:00:00" }

/-- The detection result the coordinator produces on `msgHi` when
`"+15550001111"` is a known scam number and the rule library is empty. -/
def resHi : DetectionResult :=
  { sms_id := "m1", account_id := "a1", message_text := "hi",
    from_number := "+15550001111", to_number := "+15550002222",
    sent_at := "2026-10-11T00:00:00", is_scam := true,
    risk_level := "LOW", risk_score := 36,
    detection_method := "behavioral",
    detection_category := some "behavioral_analysis",
    pattern_matched := [], behavioral_flags := ["known_scammer"] }

/-- An unreviewed HIGH-risk flag for the nightly AI-review loop. -/
def highRiskFlag : ScamFlagRow :=
  { sms_id := "s3", account_id := "a1", is_scam := true,
    risk_level := "HIGH", risk_score := 48,
    detection_method := "pattern_match",
    detection_category := some "phishing",
    message_text := "urgent payment required",
    from_number := "f3", to_number := "t3",
    review_status := some "pending", reviewed := false }

/-- A reviewer insight proposing a new pattern with high confidence. -/
def insightOk : Insight :=
  { new_pattern_detected := true, confidence := 9/10,
    scam_type := some "payment_scam",
    pattern_regex := some "urgent.*payment" }

/-- The pattern entry the nightly job records from `insightOk` on
`highRiskFlag`. -/
def patternInfoOk : PatternInfo :=
  { pattern := some "urgent.*payment", scam_type := some "payment_scam",
    confidence := 9/10,
    example_message := truncate100 "urgent payment required" }

/-! ## Theorems -/

/-- Concrete run of the coordinator on `msgHi`: a behavioral-only
detection with confidence 0.9, risk score 36, level LOW. -/
lemma analyze_msgHi :
    analyze_message defaultSettings [] ["+15550001111"] msgHi = some resHi := by
  simp +decide only [analyze_message, BehavioralDetector.check,
    BehavioralDetector.triggered, strContains, strLower, listContainsSub,
    upperCount, stripPlusMinus, suspicious_keywords, PatternMatcher.check,
    flatRules, calculate_risk_score, determine_risk_level,
    determine_detection_method, defaultSettings, msgHi, resHi]
  norm_num

/-- **C2.** On any message where at least one signal fired, the risk score
computed by `_calculate_risk_score` equals
`clamp(0,100, rule_confidence × 60 + behavioral_confidence × 40)` (with a
confidence term of 0 when that signal did not fire), and for confidence
inputs in [0,1] the result lies in [0,100]. -/
theorem c2_risk_score_clamp (p : PatternResult) (b : BehavioralResult)
    (hp0 : 0 ≤ p.confidence) (hp1 : p.confidence ≤ 1)
    (hb0 : 0 ≤ b.confidence) (hb1 : b.confidence ≤ 1) :
    calculate_risk_score p b = specRiskScore p b ∧
    0 ≤ calculate_risk_score p b ∧ calculate_risk_score p b ≤ 100 := by
  have key : ∀ x : Q, 0 ≤ x →
      min 100 x = max 0 (min 100 x) ∧ 0 ≤ min 100 x ∧ min 100 x ≤ 100 :=
    fun x hx => ⟨(max_eq_right (le_min (by norm_num) hx)).symm,
      le_min (by norm_num) hx, min_le_left _ _⟩
  unfold calculate_risk_score specRiskScore clamp
  cases p.is_match <;> cases b.is_suspicious <;>
    simp only [Bool.false_eq_true, if_true, if_false, ite_true, ite_false,
      zero_add, add_zero, zero_mul, mul_zero] <;>
    exact key _ (by linarith)

/-- **C2 witness.** A concrete instance: a pattern match at confidence 0.7
with no behavioral signal scores 42. -/
theorem c2_risk_score_clamp_witness :
    calculate_risk_score
        { is_match := true, category := some "phishing", confidence := 7/10,
          patterns := ["Account verification request"] }
        { is_suspicious := false, confidence := 0, flags := [],
          category := none }
      = specRiskScore
        { is_match := true, category := some "phishing", confidence := 7/10,
          patterns := ["Account verification request"] }
        { is_suspicious := false, confidence := 0, flags := [],
          category := none } ∧
    calculate_risk_score
        { is_match := true, category := some "phishing", confidence := 7/10,
          patterns := ["Account verification request"] }
        { is_suspicious := false, confidence := 0, flags := [],
          category := none } = 42 :=
  ⟨(c2_risk_score_clamp _ _ (by norm_num) (by norm_num) (by norm_num)
      (by norm_num)).1,
   by norm_num [calculate_risk_score]⟩

/-- **C3.** `_determine_risk_level` compares the score against each
configured threshold scaled to 100, in descending order with inclusive
lower bounds (a score exactly at a threshold maps to the higher level),
and the default thresholds are 0.9 / 0.7 / 0.4. -/
theorem c3_risk_level_thresholds (s : Settings) (score : Q) :
    (determine_risk_level s score = "CRITICAL" ↔
      s.risk_threshold_critical * 100 ≤ score) ∧
    (determine_risk_level s score = "HIGH" ↔
      s.risk_threshold_high * 100 ≤ score ∧
      score < s.risk_threshold_critical * 100) ∧
    (determine_risk_level s score = "MEDIUM" ↔
      s.risk_threshold_medium * 100 ≤ score ∧
      score < s.risk_threshold_high * 100 ∧
      score < s.risk_threshold_critical * 100) ∧
    (determine_risk_level s score = "LOW" ↔
      score < s.risk_threshold_medium * 100 ∧
      score < s.risk_threshold_high * 100 ∧
      score < s.risk_threshold_critical * 100) ∧
    defaultSettings.risk_threshold_critical = 9/10 ∧
    defaultSettings.risk_threshold_high = 7/10 ∧
    defaultSettings.risk_threshold_medium = 4/10 ∧
    determine_risk_level defaultSettings 90 = "CRITICAL" ∧
    determine_risk_level defaultSettings 70 = "HIGH" ∧
    determine_risk_level defaultSettings 40 = "MEDIUM" := by
  refine ⟨?_, ?_, ?_, ?_, rfl, rfl, rfl,
    by norm_num [determine_risk_level, defaultSettings],
    by norm_num [determine_risk_level, defaultSettings],
    by norm_num [determine_risk_level, defaultSettings]⟩ <;>
    unfold determine_risk_level <;> split_ifs with h1 h2 h3
  · simpa using h1
  · exact iff_of_false (by decide) h1
  · exact iff_of_false (by decide) h1
  · exact iff_of_false (by decide) h1
  · exact iff_of_false (by decide) fun h => absurd h1 (not_le.mpr h.2)
  · exact iff_of_true rfl ⟨h2, not_le.mp h1⟩
  · exact iff_of_false (by decide) fun h => h2 h.1
  · exact iff_of_false (by decide) fun h => h2 h.1
  · exact iff_of_false (by decide) fun h => absurd h1 (not_le.mpr h.2.2)
  · exact iff_of_false (by decide) fun h => absurd h2 (not_le.mpr h.2.1)
  · exact iff_of_true rfl ⟨h3, not_le.mp h2, not_le.mp h1⟩
  · exact iff_of_false (by decide) fun h => h3 h.1
  · exact iff_of_false (by decide) fun h => absurd h1 (not_le.mpr h.2.2)
  · exact iff_of_false (by decide) fun h => absurd h2 (not_le.mpr h.2.1)
  · exact iff_of_false (by decide) fun h => absurd h3 (not_le.mpr h.1)
  · exact iff_of_true rfl ⟨not_le.mp h3, not_le.mp h2, not_le.mp h1⟩

/-- The behavioral confidence is clamped by `min(1.0, ...)`, so never
exceeds 1. -/
lemma behavioral_confidence_le_one (known : List String)
    (from_number message_text account_id : String) :
    (BehavioralDetector.check known from_number message_text
      account_id).confidence ≤ 1 :=
  min_le_left _ _

/-- **C4.** The coordinator returns absent exactly when neither signal
fires; on every returned result the method is `hybrid` iff both the rule
library matched and the behavioral scorer fired, `pattern_match` when only
the rule library matched, `behavioral` when only the behavioral scorer
fired, and never `unknown`. -/
theorem c4_detection_method (s : Settings) (pats : Patterns)
    (known : List String) (m : Message) :
    (analyze_message s pats known m = none ↔
      (PatternMatcher.check pats m.message).is_match = false ∧
      (BehavioralDetector.check known m.host_number m.message
        m.account_id).is_suspicious = false) ∧
    (∀ r, analyze_message s pats known m = some r →
      (r.detection_method = "hybrid" ↔
        (PatternMatcher.check pats m.message).is_match = true ∧
        (BehavioralDetector.check known m.host_number m.message
          m.account_id).is_suspicious = true) ∧
      ((PatternMatcher.check pats m.message).is_match = true ∧
        (BehavioralDetector.check known m.host_number m.message
          m.account_id).is_suspicious = false →
        r.detection_method = "pattern_match") ∧
      ((PatternMatcher.check pats m.message).is_match = false ∧
        (BehavioralDetector.check known m.host_number m.message
          m.account_id).is_suspicious = true →
        r.detection_method = "behavioral") ∧
      r.detection_method ≠ "unknown") := by
  cases hm : (PatternMatcher.check pats m.message).is_match <;>
    cases hb : (BehavioralDetector.check known m.host_number m.message
      m.account_id).is_suspicious <;>
    simp only [analyze_message, determine_detection_method, hm, hb,
      Bool.false_or, Bool.or_false, Bool.true_or, Bool.or_true,
      Bool.and_self, Bool.true_and, Bool.false_and, if_true, if_false,
      Bool.false_eq_true, ite_true, ite_false] <;>
    simp_all

/-- **C4 witness.** A behavioral-only detection (known-bad sender, message
`"hi"`, empty rule library) is returned with method `behavioral`, hence
not `unknown`. -/
theorem c4_detection_method_witness :
    analyze_message defaultSettings [] ["+15550001111"] msgHi = some resHi ∧
    resHi.detection_method ≠ "unknown" :=
  ⟨analyze_msgHi,
   ((c4_detection_method defaultSettings [] ["+15550001111"] msgHi).2 resHi
     analyze_msgHi).2.2.2⟩

/-- If the score is at most 40, the default-threshold risk level is LOW or
MEDIUM. -/
lemma risk_level_le_forty (score : Q) (h : score ≤ 40) :
    determine_risk_level defaultSettings score = "LOW" ∨
    determine_risk_level defaultSettings score = "MEDIUM" := by
  unfold determine_risk_level defaultSettings
  split_ifs with h1 h2 h3
  · exfalso; norm_num at h1; linarith
  · exfalso; norm_num at h2; linarith
  · exact Or.inr rfl
  · exact Or.inl rfl

/-- **C10.** A behavioral-only detection has risk score at most 40 and,
under the default thresholds, risk level LOW or MEDIUM (never CRITICAL or
HIGH). -/
theorem c10_behavioral_only_at_most_medium (pats : Patterns)
    (known : List String) (m : Message) (r : DetectionResult)
    (h : analyze_message defaultSettings pats known m = some r)
    (hmeth : r.detection_method = "behavioral") :
    r.risk_score ≤ 40 ∧
    (r.risk_level = "LOW" ∨ r.risk_level = "MEDIUM") := by
  have hble := behavioral_confidence_le_one known m.host_number m.message
    m.account_id
  cases hm : (PatternMatcher.check pats m.message).is_match <;>
    cases hb : (BehavioralDetector.check known m.host_number m.message
      m.account_id).is_suspicious <;>
    simp only [analyze_message, determine_detection_method,
      calculate_risk_score, hm, hb, Bool.false_or, Bool.or_false,
      Bool.true_or, Bool.or_true, Bool.true_and, Bool.false_and,
      Bool.false_eq_true, if_true, if_false, ite_true, ite_false,
      zero_add, add_zero, reduceCtorEq, Option.some.injEq] at h
  · subst h
    have hs : min (100 : Q)
        ((BehavioralDetector.check known m.host_number m.message
          m.account_id).confidence * 40) ≤ 40 :=
      le_trans (min_le_right _ _) (by nlinarith)
    exact ⟨hs, risk_level_le_forty _ hs⟩
  · subst h; simp at hmeth
  · subst h; simp at hmeth

/-- **C10 witness.** The behavioral-only detection on `msgHi` has risk
score 36 ≤ 40 and risk level LOW. -/
theorem c10_behavioral_only_at_most_medium_witness :
    resHi.risk_score ≤ 40 ∧
    (resHi.risk_level = "LOW" ∨ resHi.risk_level = "MEDIUM") :=
  c10_behavioral_only_at_most_medium [] ["+15550001111"] msgHi resHi
    analyze_msgHi rfl

/-- **C6 counterexample.** A sender address of twelve letters has digit
count 0, yet the code adds the 0.2 weight (it tests the stripped string
LENGTH, not the digit count): on `from_number = "aaaaaaaaaaaa"`,
`message = "x"`, the computed confidence is 0.2 while the claim's formula
gives 0. -/
theorem c6_behavioral_confidence_counterexample :
    (BehavioralDetector.check [] "aaaaaaaaaaaa" "x" "acct").confidence
      ≠ behavioralConfidenceClaimed [] "aaaaaaaaaaaa" "x" ∧
    (BehavioralDetector.check [] "aaaaaaaaaaaa" "x" "acct").confidence
      = 1/5 ∧
    behavioralConfidenceClaimed [] "aaaaaaaaaaaa" "x" = 0 ∧
    digitCount "aaaaaaaaaaaa" = 0 := by
  refine ⟨?_, ?_, ?_, by decide⟩ <;>
    simp +decide only [BehavioralDetector.check,
      BehavioralDetector.triggered, behavioralConfidenceClaimed,
      behavioralWeightSum, digitCount, strContains, strLower,
      listContainsSub, upperCount, stripPlusMinus, suspicious_keywords] <;>
    norm_num

/-- **C6 (amended).** The behavioral confidence equals
`min(1.0, sum of the weights of the independently-evaluated triggered
conditions)` where the sixth condition is that the sender address's length
after removing `+` and `-` characters exceeds 11 (weight 0.2);
`is_suspicious` holds iff the confidence is at least 0.4; and the category
is `behavioral_analysis` when suspicious and absent otherwise. -/
theorem c6_behavioral_confidence (known_scam_numbers : List String)
    (from_number message_text account_id : String) :
    (BehavioralDetector.check known_scam_numbers from_number message_text
        account_id).confidence
      = behavioralConfidenceAmended known_scam_numbers from_number
          message_text ∧
    ((BehavioralDetector.check known_scam_numbers from_number message_text
        account_id).is_suspicious = true ↔
      behavioralConfidenceAmended known_scam_numbers from_number
          message_text ≥ 4/10) ∧
    ((BehavioralDetector.check known_scam_numbers from_number message_text
        account_id).category =
      (if behavioralConfidenceAmended known_scam_numbers from_number
          message_text ≥ 4/10
       then some "behavioral_analysis" else none)) := by
  have key : min 1 ((BehavioralDetector.triggered known_scam_numbers
      from_number message_text).map Prod.snd).sum
      = behavioralConfidenceAmended known_scam_numbers from_number
          message_text := by
    unfold BehavioralDetector.triggered behavioralConfidenceAmended
      behavioralWeightSum
    split_ifs <;>
      (congr 1 <;>
        simp only [List.map_append, List.map_cons, List.map_nil,
          List.sum_append, List.sum_cons, List.sum_nil, List.append_nil,
          List.nil_append] <;> ring)
  refine ⟨key, ?_, ?_⟩
  · rw [show (BehavioralDetector.check known_scam_numbers from_number
      message_text account_id).is_suspicious
        = decide (min 1 ((BehavioralDetector.triggered known_scam_numbers
          from_number message_text).map Prod.snd).sum ≥ 4/10) from rfl, key]
    exact decide_eq_true_iff
  · rw [show (BehavioralDetector.check known_scam_numbers from_number
      message_text account_id).category
        = (if min 1 ((BehavioralDetector.triggered known_scam_numbers
            from_number message_text).map Prod.snd).sum ≥ 4/10
           then some "behavioral_analysis" else none) from rfl, key]

/-- **C6 witness.** On the known-bad sender instance the amended formula
evaluates to 0.9 ≥ 0.4 and the category is `behavioral_analysis`. -/
theorem c6_behavioral_confidence_witness :
    (BehavioralDetector.check ["+15550001111"] "+15550001111" "hi"
        "a1").confidence
      = behavioralConfidenceAmended ["+15550001111"] "+15550001111" "hi" ∧
    behavioralConfidenceAmended ["+15550001111"] "+15550001111" "hi"
      = 9/10 :=
  ⟨(c6_behavioral_confidence ["+15550001111"] "+15550001111" "hi" "a1").1,
   by
    simp +decide only [behavioralConfidenceAmended, behavioralWeightSum,
      strContains, strLower, listContainsSub, upperCount, stripPlusMinus,
      suspicious_keywords]
    norm_num⟩

/-- The threshold-tuning item appears among the generated action items
exactly when the passed `false_positive_rate` argument exceeds 0.5. -/
lemma tune_mem_action_items_iff (total_scams : Nat) (fp_rate : Q)
    (new_patterns_count : Nat) :
    tuneThresholdsItem ∈
      generate_action_items total_scams fp_rate new_patterns_count ↔
    fp_rate > 1/2 := by
  unfold generate_action_items
  split_ifs with h1 h2 h3 <;>
    simp +decide [tuneThresholdsItem, ActionItem.mk.injEq] <;>
    linarith

/-- **C5 counterexample.** With two reviewed flags of which one is a false
positive, the code computes a rate of 50 (a percentage), not the claimed
fraction 1/2; and the tune-thresholds action item is emitted although the
fraction does not exceed 0.5. -/
theorem c5_false_positive_rate_counterexample :
    false_positive_rate c5flags ≠ claimedFalsePositiveRate c5flags ∧
    false_positive_rate c5flags = 50 ∧
    claimedFalsePositiveRate c5flags = 1/2 ∧
    tuneThresholdsItem ∈
      generate_action_items c5flags.length (false_positive_rate c5flags) 0 ∧
    ¬ claimedFalsePositiveRate c5flags > 1/2 := by
  have hcode : false_positive_rate c5flags = 50 := by
    simp +decide [false_positive_rate, c5flags, confirmedFlag,
      falsePositiveFlag, List.filter_cons, List.filter_nil]
    norm_num
  have hclaim : claimedFalsePositiveRate c5flags = 1/2 := by
    simp +decide [claimedFalsePositiveRate, c5flags, confirmedFlag,
      falsePositiveFlag, List.filter_cons, List.filter_nil]
  refine ⟨by rw [hcode, hclaim]; norm_num, hcode, hclaim, ?_, ?_⟩
  · rw [hcode]
    exact (tune_mem_action_items_iff _ _ _).mpr (by norm_num)
  · rw [hclaim]; norm_num

/-- **C5 (amended).** The nightly report's false-positive rate is the
PERCENTAGE `100 × (reviewed_false_positive_count / reviewed_count)` (0
when no flag is reviewed), and the "review and tune thresholds" action
item is produced iff that percentage exceeds 0.5 — i.e. iff the fraction
of reviewed flags judged false positives exceeds 0.005. -/
theorem c5_false_positive_rate_percentage (s : Settings)
    (review : ScamFlagRow → Except String Insight)
    (scam_flags : List ScamFlagRow) :
    (nightly_summary_job s review scam_flags).false_positive_rate
      = 100 * claimedFalsePositiveRate scam_flags ∧
    ((scam_flags.filter fun f => f.reviewed) = [] →
      (nightly_summary_job s review scam_flags).false_positive_rate = 0) ∧
    (tuneThresholdsItem ∈ (nightly_summary_job s review scam_flags).action_items
      ↔ claimedFalsePositiveRate scam_flags > 1/200) := by
  have hrate : false_positive_rate scam_flags
      = 100 * claimedFalsePositiveRate scam_flags := by
    simp only [false_positive_rate, claimedFalsePositiveRate]
    split_ifs with h
    · ring
    · ring
  refine ⟨hrate, ?_, ?_⟩
  · intro h
    show false_positive_rate scam_flags = 0
    unfold false_positive_rate
    rw [if_pos (by simp [h])]
  · show tuneThresholdsItem ∈ generate_action_items scam_flags.length
      (false_positive_rate scam_flags) _ ↔ _
    rw [tune_mem_action_items_iff, hrate]
    constructor <;> intro h <;> linarith

/-- **C5 (amended) witness.** On the two-flag day the report's rate is 50,
the reviewed set is nonempty, and the tune-thresholds item is present
since 1/2 > 1/200. -/
theorem c5_false_positive_rate_percentage_witness :
    (nightly_summary_job defaultSettings (fun _ => .error "down")
        c5flags).false_positive_rate = 100 * claimedFalsePositiveRate c5flags ∧
    (tuneThresholdsItem ∈ (nightly_summary_job defaultSettings
        (fun _ => .error "down") c5flags).action_items ↔
      claimedFalsePositiveRate c5flags > 1/200) :=
  ⟨(c5_false_positive_rate_percentage defaultSettings
      (fun _ => .error "down") c5flags).1,
   (c5_false_positive_rate_percentage defaultSettings
      (fun _ => .error "down") c5flags).2.2⟩

/-- Unfolding one step of the flag-writing loop. -/
lemma writeFlags_cons (db : List ScamFlagRow) (r : DetectionResult)
    (rs : List DetectionResult) :
    writeFlags db (r :: rs) =
      writeFlags (if db.any fun f => f.sms_id == r.sms_id then db
        else db ++ [mkScamFlag r]) rs := rfl

/-- Rows present before the write loop are still present afterwards. -/
lemma mem_writeFlags (rs : List DetectionResult) :
    ∀ (db : List ScamFlagRow) (f : ScamFlagRow), f ∈ db →
      f ∈ writeFlags db rs := by
  induction rs with
  | nil => exact fun db f hf => hf
  | cons r rest ih =>
    intro db f hf
    rw [writeFlags_cons]
    refine ih _ f ?_
    split_ifs
    · exact hf
    · exact List.mem_append_left _ hf

/-- The write loop preserves uniqueness of `sms_id`s: a result whose
`sms_id` is already present inserts nothing, and an inserted row's
`sms_id` was absent. -/
lemma writeFlags_nodup (rs : List DetectionResult) :
    ∀ db : List ScamFlagRow, (db.map ScamFlagRow.sms_id).Nodup →
      ((writeFlags db rs).map ScamFlagRow.sms_id).Nodup := by
  induction rs with
  | nil => exact fun db h => h
  | cons r rest ih =>
    intro db hnd
    rw [writeFlags_cons]
    refine ih _ ?_
    split_ifs with h
    · exact hnd
    · have hmem : r.sms_id ∉ db.map ScamFlagRow.sms_id := by
        intro hm
        obtain ⟨f, hf, hid⟩ := List.mem_map.mp hm
        exact h (List.any_eq_true.mpr ⟨f, hf, beq_iff_eq.mpr hid⟩)
      have : (db ++ [mkScamFlag r]).map ScamFlagRow.sms_id
          = db.map ScamFlagRow.sms_id ++ [r.sms_id] := by
        simp [mkScamFlag]
      rw [this]
      simp [List.nodup_append, hnd, hmem]

/-- **C1 counterexample.** A second scan over a window containing the
already-flagged message `m1` inserts no new `ScamFlag` row — but the run's
`scams_detected` is `len(detection_results) = 1`: it DOES count the
already-flagged message, where the claim requires 0. -/
theorem c1_scan_idempotence_counterexample :
    (periodic_scan_job (.ok [msgHi]) (fun _ => .ok (some resHi)) (.ok ())
      [mkScamFlag resHi]).flags = [mkScamFlag resHi] ∧
    (periodic_scan_job (.ok [msgHi]) (fun _ => .ok (some resHi)) (.ok ())
      [mkScamFlag resHi]).run.scams_detected = 1 ∧
    (periodic_scan_job (.ok [msgHi]) (fun _ => .ok (some resHi)) (.ok ())
      [mkScamFlag resHi]).run.scams_detected ≠ 0 := by
  refine ⟨?_, rfl, by simp [periodic_scan_job, scanResults, scanStep]⟩
  show writeFlags [mkScamFlag resHi] (scanResults _ [msgHi])
    = [mkScamFlag resHi]
  simp +decide [writeFlags, scanResults, scanStep, mkScamFlag, resHi]

/-- **C1 (amended).** A periodic scan inserts at most one `ScamFlag` per
message identifier: results whose `sms_id` is already flagged are skipped,
uniqueness of `sms_id`s is preserved, and existing rows are kept — but the
run's recorded `scams_detected` equals the full count of detection
results, already-flagged ones included. -/
theorem c1_scan_idempotent_persistence
    (fetch : Except String (List Message))
    (analyze : Message → Except String (Option DetectionResult))
    (finalize : Except String Unit) (db : List ScamFlagRow)
    (hnd : (db.map ScamFlagRow.sms_id).Nodup) :
    (((periodic_scan_job fetch analyze finalize db).flags.map
        ScamFlagRow.sms_id).Nodup) ∧
    (∀ f ∈ db, f ∈ (periodic_scan_job fetch analyze finalize db).flags) ∧
    (∀ msgs, fetch = .ok msgs →
      (periodic_scan_job fetch analyze finalize db).raised = none →
      (periodic_scan_job fetch analyze finalize db).run.scams_detected
        = (scanResults analyze msgs).length) := by
  cases fetch with
  | error e =>
    exact ⟨hnd, fun f hf => hf, fun msgs hmsgs => by cases hmsgs⟩
  | ok msgs =>
    cases hfin : finalize with
    | error e =>
      refine ⟨writeFlags_nodup _ db hnd, fun f hf => mem_writeFlags _ db f hf,
        fun msgs' hmsgs hraised => ?_⟩
      simp [periodic_scan_job] at hraised
    | ok u =>
      refine ⟨writeFlags_nodup _ db hnd, fun f hf => mem_writeFlags _ db f hf,
        fun msgs' hmsgs hraised => ?_⟩
      cases hmsgs
      rfl

/-- **C1 (amended) witness.** Re-scanning the already-flagged `m1` keeps
the single flag row (ids unique) and reports `scams_detected = 1`. -/
theorem c1_scan_idempotent_persistence_witness :
    (((periodic_scan_job (.ok [msgHi]) (fun _ => .ok (some resHi)) (.ok ())
        [mkScamFlag resHi]).flags.map ScamFlagRow.sms_id).Nodup) ∧
    (periodic_scan_job (.ok [msgHi]) (fun _ => .ok (some resHi)) (.ok ())
        [mkScamFlag resHi]).run.scams_detected
      = (scanResults (fun _ => .ok (some resHi)) [msgHi]).length :=
  ⟨(c1_scan_idempotent_persistence (.ok [msgHi]) (fun _ => .ok (some resHi))
      (.ok ()) [mkScamFlag resHi] (by simp [mkScamFlag, resHi])).1,
   (c1_scan_idempotent_persistence (.ok [msgHi]) (fun _ => .ok (some resHi))
      (.ok ()) [mkScamFlag resHi] (by simp [mkScamFlag, resHi])).2.2
     [msgHi] rfl rfl⟩

/-- A message whose analysis raises is skipped: deleting it from the batch
leaves the collected detection results unchanged. -/
lemma scanResults_skip_error
    (analyze : Message → Except String (Option DetectionResult))
    (l1 l2 : List Message) (m : Message) (e : String)
    (he : analyze m = .error e) :
    scanResults analyze (l1 ++ m :: l2) = scanResults analyze (l1 ++ l2) := by
  show (l1 ++ m :: l2).foldl (scanStep analyze) []
    = (l1 ++ l2).foldl (scanStep analyze) []
  rw [List.foldl_append, List.foldl_append, List.foldl_cons,
    show scanStep analyze (l1.foldl (scanStep analyze) []) m
      = l1.foldl (scanStep analyze) [] from by unfold scanStep; rw [he]]

/-- **C8.** Run lifecycle of `periodic_scan_job`: the run is finalized to
exactly one of `completed`/`failed`; `completed` iff no exception is
re-raised; a fetch or finalize exception finalizes the run to `failed`
with the captured error text and re-raises it; when fetch and finalize
succeed the run completes regardless of per-message analysis failures;
and a message whose analysis raises is skipped without affecting the rest
of the batch. -/
theorem c8_run_lifecycle (fetch : Except String (List Message))
    (analyze : Message → Except String (Option DetectionResult))
    (finalize : Except String Unit) (db : List ScamFlagRow) :
    ((periodic_scan_job fetch analyze finalize db).run.status = "completed" ∨
      (periodic_scan_job fetch analyze finalize db).run.status = "failed") ∧
    ((periodic_scan_job fetch analyze finalize db).run.status = "completed" ↔
      (periodic_scan_job fetch analyze finalize db).raised = none) ∧
    (∀ e, fetch = .error e →
      (periodic_scan_job fetch analyze finalize db).run.status = "failed" ∧
      (periodic_scan_job fetch analyze finalize db).run.error_message
        = some e ∧
      (periodic_scan_job fetch analyze finalize db).raised = some e) ∧
    (∀ msgs e, fetch = .ok msgs → finalize = .error e →
      (periodic_scan_job fetch analyze finalize db).run.status = "failed" ∧
      (periodic_scan_job fetch analyze finalize db).run.error_message
        = some e ∧
      (periodic_scan_job fetch analyze finalize db).raised = some e) ∧
    (∀ msgs, fetch = .ok msgs → finalize = .ok () →
      (periodic_scan_job fetch analyze finalize db).run.status
        = "completed" ∧
      (periodic_scan_job fetch analyze finalize db).raised = none) ∧
    (∀ (l1 l2 : List Message) (m : Message) (e : String),
      analyze m = .error e →
      scanResults analyze (l1 ++ m :: l2) = scanResults analyze (l1 ++ l2)) := by
  refine ⟨?_, ?_, ?_, ?_, ?_, fun l1 l2 m e he =>
    scanResults_skip_error analyze l1 l2 m e he⟩ <;>
    (cases fetch with
     | error e => simp [periodic_scan_job]
     | ok msgs => cases finalize <;> simp [periodic_scan_job])

/-- **C8 witness.** A failing fetch finalizes the run to `failed` with the
captured error text and re-raises it. -/
theorem c8_run_lifecycle_witness :
    (periodic_scan_job (.error "portal down")
      (fun _ => .ok none) (.ok ()) []).run.status = "failed" ∧
    (periodic_scan_job (.error "portal down")
      (fun _ => .ok none) (.ok ()) []).run.error_message
      = some "portal down" ∧
    (periodic_scan_job (.error "portal down")
      (fun _ => .ok none) (.ok ()) []).raised = some "portal down" :=
  (c8_run_lifecycle (.error "portal down") (fun _ => .ok none) (.ok ())
    []).2.2.1 "portal down" rfl

/-- A truncated example message has at most 100 characters. -/
lemma truncate100_length_le (s : String) : (truncate100 s).length ≤ 100 := by
  show (s.data.take 100).length ≤ 100
  rw [List.length_take]
  exact min_le_left _ _

/-- Membership in the collected new patterns, characterized: an entry is
recorded exactly for flags whose review succeeded with
`new_pattern_detected` and confidence above 0.8. -/
lemma mem_collectNewPatterns (review : ScamFlagRow → Except String Insight) :
    ∀ (l : List ScamFlagRow) (p : PatternInfo),
      p ∈ collectNewPatterns review l ↔
      ∃ f ∈ l, ∃ insight, review f = .ok insight ∧
        insight.new_pattern_detected = true ∧ insight.confidence > 8/10 ∧
        p = { pattern := insight.pattern_regex,
              scam_type := insight.scam_type,
              confidence := insight.confidence,
              example_message := truncate100 f.message_text } := by
  intro l
  induction l with
  | nil => intro p; simp [collectNewPatterns]
  | cons f rest ih =>
    intro p
    rw [show collectNewPatterns review (f :: rest)
        = (match review f with
           | .error _ => []
           | .ok insight =>
             if insight.new_pattern_detected && insight.confidence > 8/10 then
               [{ pattern := insight.pattern_regex
                  scam_type := insight.scam_type
                  confidence := insight.confidence
                  example_message := truncate100 f.message_text }]
             else []) ++ collectNewPatterns review rest from rfl]
    rw [List.mem_append]
    constructor
    · rintro (hp | hp)
      · cases hrf : review f with
        | error e => rw [hrf] at hp; cases hp
        | ok insight =>
          rw [hrf] at hp
          dsimp only at hp
          by_cases hc : (insight.new_pattern_detected
              && decide (insight.confidence > 8/10)) = true
          · rw [if_pos hc] at hp
            rw [Bool.and_eq_true] at hc
            refine ⟨f, List.mem_cons_self f rest, insight, hrf, hc.1,
              of_decide_eq_true hc.2, ?_⟩
            simpa using hp
          · rw [if_neg hc] at hp; cases hp
      · obtain ⟨g, hg, insight, h⟩ := (ih p).mp hp
        exact ⟨g, List.mem_cons_of_mem f hg, insight, h⟩
    · rintro ⟨g, hg, insight, hrg, h1, h2, hp⟩
      rcases List.mem_cons.mp hg with hgf | hgrest
      · subst hgf
        left
        rw [hrg]
        dsimp only
        rw [if_pos (by rw [Bool.and_eq_true]; exact ⟨h1, decide_eq_true h2⟩)]
        simp [hp]
      · right
        exact (ih p).mpr ⟨g, hgrest, insight, hrg, h1, h2, hp⟩

/-- **C9.** In the nightly job, a proposed pattern entry is recorded for a
selected high-risk unreviewed flag iff the reviewer succeeded with
`new_pattern_detected = true` and confidence strictly above 0.8; every
recorded entry carries the proposed pattern, scam type, confidence and an
example message of at most 100 characters; and a reviewer failure skips
only that flag — removing a failing flag leaves the collected patterns
unchanged. -/
theorem c9_new_patterns (s : Settings)
    (review : ScamFlagRow → Except String Insight)
    (scam_flags : List ScamFlagRow) :
    (∀ p, p ∈ (nightly_summary_job s review scam_flags).new_patterns_learned
      ↔ ∃ f ∈ highRiskUnreviewed s scam_flags, ∃ insight,
          review f = .ok insight ∧ insight.new_pattern_detected = true ∧
          insight.confidence > 8/10 ∧
          p = { pattern := insight.pattern_regex,
                scam_type := insight.scam_type,
                confidence := insight.confidence,
                example_message := truncate100 f.message_text }) ∧
    (∀ p, p ∈ (nightly_summary_job s review scam_flags).new_patterns_learned
      → p.example_message.length ≤ 100) ∧
    (∀ (l1 l2 : List ScamFlagRow) (f : ScamFlagRow) (e : String),
      review f = .error e →
      collectNewPatterns review (l1 ++ f :: l2)
        = collectNewPatterns review (l1 ++ l2)) := by
  refine ⟨fun p => mem_collectNewPatterns review _ p, fun p hp => ?_, ?_⟩
  · obtain ⟨f, _, insight, _, _, _, hp⟩ :=
      (mem_collectNewPatterns review _ p).mp hp
    rw [hp]
    exact truncate100_length_le f.message_text
  · intro l1 l2 f e he
    induction l1 with
    | nil =>
      show (match review f with
        | .error _ => []
        | .ok insight => _) ++ collectNewPatterns review l2
        = collectNewPatterns review l2
      rw [he]
      simp
    | cons g gs ih =>
      show (match review g with
        | .error _ => []
        | .ok insight => _) ++ collectNewPatterns review (gs ++ f :: l2)
        = (match review g with
          | .error _ => []
          | .ok insight => _) ++ collectNewPatterns review (gs ++ l2)
      rw [ih]

/-- **C9 witness.** On a single selected high-risk flag whose review
proposes a pattern at confidence 0.9, the entry is recorded with the
truncated example; a failing review at a concrete flag contributes
nothing. -/
theorem c9_new_patterns_witness :
    patternInfoOk ∈ (nightly_summary_job defaultSettings
      (fun _ => .ok insightOk) [highRiskFlag]).new_patterns_learned ∧
    patternInfoOk.example_message.length ≤ 100 ∧
    collectNewPatterns (fun _ => (.error "api down" : Except String Insight))
      ([] ++ highRiskFlag :: []) =
      collectNewPatterns (fun _ => (.error "api down" : Except String Insight))
      ([] ++ []) := by
  have hmem : patternInfoOk ∈ (nightly_summary_job defaultSettings
      (fun _ => .ok insightOk) [highRiskFlag]).new_patterns_learned := by
    refine ((c9_new_patterns defaultSettings (fun _ => .ok insightOk)
      [highRiskFlag]).1 patternInfoOk).mpr
      ⟨highRiskFlag, ?_, insightOk, rfl, rfl, by norm_num [insightOk], ?_⟩
    · show highRiskFlag ∈ ([highRiskFlag].filter _).take
        defaultSettings.max_ai_reviews_daily
      simp +decide [highRiskFlag, defaultSettings]
    · simp [patternInfoOk, insightOk, highRiskFlag]
  refine ⟨hmem,
    (c9_new_patterns defaultSettings (fun _ => .ok insightOk)
      [highRiskFlag]).2.1 patternInfoOk hmem,
    (c9_new_patterns defaultSettings
      (fun _ => (.error "api down" : Except String Insight)) []).2.2
      [] [] highRiskFlag "api down" rfl⟩

/-- One loop iteration on a matching rule. -/
lemma checkStep_test_pos (msg : String) (ds : List String) (c : Q)
    (k : Option String) (p : String × Rule) (ht : p.2.test msg = true) :
    checkStep msg (ds, c, k) p =
      if p.2.confidence > c
      then (ds ++ [p.2.description], p.2.confidence, some p.1)
      else (ds ++ [p.2.description], c, k) := by
  unfold checkStep
  rw [if_pos ht]

/-- One loop iteration on a non-matching rule. -/
lemma checkStep_test_neg (msg : String) (ds : List String) (c : Q)
    (k : Option String) (p : String × Rule) (ht : ¬ p.2.test msg = true) :
    checkStep msg (ds, c, k) p = (ds, c, k) := by
  unfold checkStep
  rw [if_neg ht]

/-- Unfolding `maxMatchConf` on a matching head. -/
lemma maxMatchConf_cons_pos (msg : String) (c : Q) (p : String × Rule)
    (rest : List (String × Rule)) (ht : p.2.test msg = true) :
    maxMatchConf msg c (p :: rest)
      = maxMatchConf msg (max c p.2.confidence) rest := by
  simp only [maxMatchConf]
  rw [if_pos ht]

/-- Unfolding `maxMatchConf` on a non-matching head. -/
lemma maxMatchConf_cons_neg (msg : String) (c : Q) (p : String × Rule)
    (rest : List (String × Rule)) (ht : ¬ p.2.test msg = true) :
    maxMatchConf msg c (p :: rest) = maxMatchConf msg c rest := by
  simp only [maxMatchConf]
  rw [if_neg ht]

/-- The matched-description component of the loop: the descriptions of all
matching rules, in iteration order, appended to the accumulator. -/
lemma checkFold_patterns (msg : String) :
    ∀ (l : List (String × Rule)) (ds : List String) (c : Q)
      (k : Option String),
      (l.foldl (checkStep msg) (ds, c, k)).1
        = ds ++ (l.filter fun p => p.2.test msg).map
            fun p => p.2.description := by
  intro l
  induction l with
  | nil => intro ds c k; simp
  | cons p rest ih =>
    intro ds c k
    rw [List.foldl_cons]
    by_cases ht : p.2.test msg = true
    · rw [checkStep_test_pos msg ds c k p ht]
      by_cases hc : p.2.confidence > c
      · rw [if_pos hc, ih]
        simp [List.filter_cons, ht]
      · rw [if_neg hc, ih]
        simp [List.filter_cons, ht]
    · rw [checkStep_test_neg msg ds c k p ht, ih]
      simp [List.filter_cons, ht]

/-- The confidence component of the loop is the running maximum of the
matching rules' confidences. -/
lemma checkFold_confidence (msg : String) :
    ∀ (l : List (String × Rule)) (ds : List String) (c : Q)
      (k : Option String),
      (l.foldl (checkStep msg) (ds, c, k)).2.1 = maxMatchConf msg c l := by
  intro l
  induction l with
  | nil => intro ds c k; rfl
  | cons p rest ih =>
    intro ds c k
    rw [List.foldl_cons]
    by_cases ht : p.2.test msg = true
    · rw [checkStep_test_pos msg ds c k p ht,
        maxMatchConf_cons_pos msg c p rest ht]
      by_cases hc : p.2.confidence > c
      · rw [if_pos hc, ih, max_eq_right (le_of_lt hc)]
      · rw [if_neg hc, ih, max_eq_left (not_lt.mp hc)]
    · rw [checkStep_test_neg msg ds c k p ht,
        maxMatchConf_cons_neg msg c p rest ht, ih]

/-- The running maximum never drops below its initial value. -/
lemma init_le_maxMatchConf (msg : String) :
    ∀ (l : List (String × Rule)) (c : Q), c ≤ maxMatchConf msg c l := by
  intro l
  induction l with
  | nil => intro c; exact le_refl c
  | cons p rest ih =>
    intro c
    by_cases ht : p.2.test msg = true
    · rw [maxMatchConf_cons_pos msg c p rest ht]
      exact le_trans (le_max_left c p.2.confidence) (ih _)
    · rw [maxMatchConf_cons_neg msg c p rest ht]
      exact ih c

/-- Every matching rule's confidence is bounded by the running maximum. -/
lemma conf_le_maxMatchConf (msg : String) :
    ∀ (l : List (String × Rule)) (c : Q) (q : String × Rule), q ∈ l →
      q.2.test msg = true → q.2.confidence ≤ maxMatchConf msg c l := by
  intro l
  induction l with
  | nil => intro c q hq; cases hq
  | cons p rest ih =>
    intro c q hq htq
    rcases List.mem_cons.mp hq with hqp | hqrest
    · subst hqp
      rw [maxMatchConf_cons_pos msg c q rest htq]
      exact le_trans (le_max_right c q.2.confidence)
        (init_le_maxMatchConf msg rest _)
    · by_cases ht : p.2.test msg = true
      · rw [maxMatchConf_cons_pos msg c p rest ht]
        exact ih _ q hqrest htq
      · rw [maxMatchConf_cons_neg msg c p rest ht]
        exact ih c q hqrest htq

/-- The running maximum is the initial value or is attained by a matching
rule. -/
lemma maxMatchConf_attained (msg : String) :
    ∀ (l : List (String × Rule)) (c : Q),
      maxMatchConf msg c l = c ∨
      ∃ q ∈ l, q.2.test msg = true ∧
        maxMatchConf msg c l = q.2.confidence := by
  intro l
  induction l with
  | nil => intro c; exact Or.inl rfl
  | cons p rest ih =>
    intro c
    by_cases ht : p.2.test msg = true
    · rw [maxMatchConf_cons_pos msg c p rest ht]
      rcases ih (max c p.2.confidence) with h | hex
      · rcases le_or_lt p.2.confidence c with hle | hlt
        · exact Or.inl (by rw [h, max_eq_left hle])
        · exact Or.inr ⟨p, List.mem_cons_self p rest, ht,
            by rw [h, max_eq_right (le_of_lt hlt)]⟩
      · obtain ⟨q, hq, htq, hval⟩ := hex
        exact Or.inr ⟨q, List.mem_cons_of_mem p hq, htq, hval⟩
    · rw [maxMatchConf_cons_neg msg c p rest ht]
      rcases ih c with h | hex
      · exact Or.inl h
      · obtain ⟨q, hq, htq, hval⟩ := hex
        exact Or.inr ⟨q, List.mem_cons_of_mem p hq, htq, hval⟩

/-- A search only looks at the predicate's values on the list members. -/
lemma find?_congr_mem {α : Type} (f g : α → Bool) :
    ∀ l : List α, (∀ x ∈ l, f x = g x) → l.find? f = l.find? g := by
  intro l
  induction l with
  | nil => intro _; rfl
  | cons a rest ih =>
    intro h
    rw [List.find?_cons, List.find?_cons, h a (List.mem_cons_self a rest),
      ih fun x hx => h x (List.mem_cons_of_mem a hx)]

/-- Searching a filtered list is searching with the conjunction. -/
lemma find?_filter_eq {α : Type} (t f : α → Bool) :
    ∀ l : List α, (l.filter t).find? f = l.find? fun x => t x && f x := by
  intro l
  induction l with
  | nil => rfl
  | cons a rest ih =>
    rw [List.filter_cons]
    by_cases hta : t a = true
    · rw [if_pos hta, List.find?_cons, List.find?_cons, hta, Bool.true_and]
      cases f a <;> simp [ih]
    · rw [if_neg hta, List.find?_cons,
        show t a = false from Bool.not_eq_true _ |>.mp hta, Bool.false_and]
      exact ih

/-- The category component of the loop: the first matching rule that
strictly beats the initial running maximum and attains the overall
maximum wins; otherwise the initial category stands. -/
lemma checkFold_category (msg : String) :
    ∀ (l : List (String × Rule)) (ds : List String) (c : Q)
      (k : Option String),
      (l.foldl (checkStep msg) (ds, c, k)).2.2
        = match l.find? (fun p => p.2.test msg
            && decide (p.2.confidence > c)
            && decide (maxMatchConf msg c l ≤ p.2.confidence)) with
          | some p => some p.1
          | none => k := by
  intro l
  induction l with
  | nil => intro ds c k; rfl
  | cons p rest ih =>
    intro ds c k
    rw [List.foldl_cons]
    by_cases ht : p.2.test msg = true
    · rw [checkStep_test_pos msg ds c k p ht]
      have hM : maxMatchConf msg c (p :: rest)
          = maxMatchConf msg (max c p.2.confidence) rest :=
        maxMatchConf_cons_pos msg c p rest ht
      by_cases hc : p.2.confidence > c
      · rw [if_pos hc, ih]
        have hM' : maxMatchConf msg c (p :: rest)
            = maxMatchConf msg p.2.confidence rest := by
          rw [hM, max_eq_right (le_of_lt hc)]
        by_cases hMp : maxMatchConf msg c (p :: rest) ≤ p.2.confidence
        · have hhead : (fun q : String × Rule => q.2.test msg
              && decide (q.2.confidence > c)
              && decide (maxMatchConf msg c (p :: rest)
                ≤ q.2.confidence)) p = true := by
            simp only [ht, decide_eq_true hc, decide_eq_true hMp,
              Bool.and_self]
          rw [List.find?_cons_of_pos rest hhead]
          have hnone : rest.find? (fun q => q.2.test msg
              && decide (q.2.confidence > p.2.confidence)
              && decide (maxMatchConf msg p.2.confidence rest
                ≤ q.2.confidence)) = none := by
            rw [List.find?_eq_none]
            intro q hq hpred
            simp only [Bool.and_eq_true, decide_eq_true_eq] at hpred
            obtain ⟨⟨htq, hgt⟩, _⟩ := hpred
            have hle : q.2.confidence
                ≤ maxMatchConf msg p.2.confidence rest :=
              conf_le_maxMatchConf msg rest p.2.confidence q hq htq
            rw [← hM'] at hle
            exact absurd (lt_of_le_of_lt (le_trans hle hMp) hgt)
              (lt_irrefl _)
          rw [hnone]
        · have hhead : ¬ (fun q : String × Rule => q.2.test msg
              && decide (q.2.confidence > c)
              && decide (maxMatchConf msg c (p :: rest)
                ≤ q.2.confidence)) p = true := by
            simp [ht, hc, hMp]
          rw [List.find?_cons_of_neg rest hhead]
          have hcongr : rest.find? (fun q => q.2.test msg
              && decide (q.2.confidence > p.2.confidence)
              && decide (maxMatchConf msg p.2.confidence rest
                ≤ q.2.confidence))
              = rest.find? (fun q => q.2.test msg
              && decide (q.2.confidence > c)
              && decide (maxMatchConf msg c (p :: rest)
                ≤ q.2.confidence)) := by
            refine find?_congr_mem _ _ rest fun q hq => ?_
            rw [← hM']
            by_cases hqM : maxMatchConf msg c (p :: rest)
                ≤ q.2.confidence
            · have h1 : p.2.confidence < q.2.confidence :=
                lt_of_lt_of_le (not_le.mp hMp) hqM
              have h2 : c < q.2.confidence := lt_trans hc h1
              simp [hqM, h1, h2]
            · simp [hqM]
          rw [hcongr]
          have hattain : ∃ q ∈ rest, (fun q => q.2.test msg
              && decide (q.2.confidence > c)
              && decide (maxMatchConf msg c (p :: rest)
                ≤ q.2.confidence)) q = true := by
            rcases maxMatchConf_attained msg rest p.2.confidence
              with h0 | hex
            · exact absurd (hM' ▸ h0 ▸ not_le.mp hMp) (lt_irrefl _)
            · obtain ⟨q, hq, htq, hval⟩ := hex
              refine ⟨q, hq, ?_⟩
              have hgtc : c < q.2.confidence := by
                rw [← hval, ← hM']
                exact lt_of_lt_of_le hc
                  (hM' ▸ init_le_maxMatchConf msg rest p.2.confidence)
              have hqM : maxMatchConf msg c (p :: rest)
                  ≤ q.2.confidence := le_of_eq (hM' ▸ hval)
              simp [htq, hgtc, hqM]
          obtain ⟨q0, hq0, hpred0⟩ := hattain
          cases hfind : rest.find? (fun q => q.2.test msg
              && decide (q.2.confidence > c)
              && decide (maxMatchConf msg c (p :: rest)
                ≤ q.2.confidence)) with
          | some q => rfl
          | none =>
            rw [List.find?_eq_none] at hfind
            exact absurd hpred0 (hfind q0 hq0)
      · rw [if_neg hc, ih]
        have hM' : maxMatchConf msg c (p :: rest)
            = maxMatchConf msg c rest := by
          rw [hM, max_eq_left (not_lt.mp hc)]
        have hhead : ¬ (fun q : String × Rule => q.2.test msg
            && decide (q.2.confidence > c)
            && decide (maxMatchConf msg c (p :: rest)
              ≤ q.2.confidence)) p = true := by
          simp [hc]
        rw [List.find?_cons_of_neg rest hhead, hM']
    · rw [checkStep_test_neg msg ds c k p ht, ih]
      have hM' : maxMatchConf msg c (p :: rest)
          = maxMatchConf msg c rest := maxMatchConf_cons_neg msg c p rest ht
      have hhead : ¬ (fun q : String × Rule => q.2.test msg
          && decide (q.2.confidence > c)
          && decide (maxMatchConf msg c (p :: rest)
            ≤ q.2.confidence)) p = true := by
        simp [ht]
      rw [List.find?_cons_of_neg rest hhead, hM']

/-- **C7 counterexample.** A registered rule with confidence 0 (allowed by
the spec's confidence range [0,1]) matches, so its category should be
reported as the highest-confidence matching rule's category — but the
strict `>` against the 0.0 initial maximum never fires, and the reported
category is absent. -/
theorem c7_check_counterexample :
    (PatternMatcher.check zeroConfPats "x").is_match = true ∧
    (matchingRules zeroConfPats "x").map Prod.fst = ["cat0"] ∧
    (PatternMatcher.check zeroConfPats "x").category = none := by
  have heval : (flatRules zeroConfPats).foldl (checkStep "x") ([], 0, none)
      = (["always"], 0, none) := by
    norm_num [zeroConfPats, flatRules, checkStep]
  refine ⟨?_, ?_, ?_⟩
  · show decide (((flatRules zeroConfPats).foldl (checkStep "x")
      ([], 0, none)).1.length > 0) = true
    rw [heval]
    rfl
  · norm_num [matchingRules, zeroConfPats, flatRules]
  · show ((flatRules zeroConfPats).foldl (checkStep "x")
      ([], 0, none)).2.2 = none
    rw [heval]

/-- **C7 (amended).** For every text and every library whose rules all
have positive confidence, `check` collects the matching rules'
descriptions in iteration order; `is_match` holds iff some rule matched;
the reported confidence bounds every matching rule's confidence and is
attained by the reported category's rule; when nothing matches the
confidence is 0 and the category absent; and the reported category is
that of the FIRST matching rule (in iteration order) whose confidence
reaches the maximum — so ties at the maximum are broken deterministically
in favour of the earliest rule, identically on every evaluation of the
same library state. -/
theorem c7_check_highest_confidence (pats : Patterns) (msg : String)
    (hpos : ∀ p ∈ flatRules pats, 0 < p.2.confidence) :
    ((PatternMatcher.check pats msg).is_match = true ↔
      matchingRules pats msg ≠ []) ∧
    ((PatternMatcher.check pats msg).patterns
      = (matchingRules pats msg).map fun p => p.2.description) ∧
    (∀ q ∈ matchingRules pats msg,
      q.2.confidence ≤ (PatternMatcher.check pats msg).confidence) ∧
    (matchingRules pats msg = [] →
      (PatternMatcher.check pats msg).confidence = 0 ∧
      (PatternMatcher.check pats msg).category = none) ∧
    (matchingRules pats msg ≠ [] →
      ∃ q ∈ matchingRules pats msg,
        (PatternMatcher.check pats msg).confidence = q.2.confidence ∧
        (PatternMatcher.check pats msg).category = some q.1) ∧
    ((PatternMatcher.check pats msg).category
      = ((matchingRules pats msg).find? fun p =>
          decide ((PatternMatcher.check pats msg).confidence
            ≤ p.2.confidence)).map Prod.fst) := by
  have hpatterns : (PatternMatcher.check pats msg).patterns
      = (matchingRules pats msg).map fun p => p.2.description := by
    show ((flatRules pats).foldl (checkStep msg) ([], 0, none)).1 = _
    rw [checkFold_patterns msg (flatRules pats) [] 0 none]
    simp [matchingRules]
  have hconf : (PatternMatcher.check pats msg).confidence
      = maxMatchConf msg 0 (flatRules pats) :=
    checkFold_confidence msg (flatRules pats) [] 0 none
  have hcat : (PatternMatcher.check pats msg).category
      = match (flatRules pats).find? (fun p => p.2.test msg
          && decide (p.2.confidence > 0)
          && decide (maxMatchConf msg 0 (flatRules pats)
            ≤ p.2.confidence)) with
        | some p => some p.1
        | none => none :=
    checkFold_category msg (flatRules pats) [] 0 none
  have hbound : ∀ q ∈ matchingRules pats msg,
      q.2.confidence ≤ (PatternMatcher.check pats msg).confidence := by
    intro q hq
    obtain ⟨hmem, htest⟩ := List.mem_filter.mp hq
    rw [hconf]
    exact conf_le_maxMatchConf msg (flatRules pats) 0 q hmem htest
  have hfind : (PatternMatcher.check pats msg).category
      = ((matchingRules pats msg).find? fun p =>
          decide ((PatternMatcher.check pats msg).confidence
            ≤ p.2.confidence)).map Prod.fst := by
    rw [hcat]
    have hrhs : (matchingRules pats msg).find? (fun p =>
        decide ((PatternMatcher.check pats msg).confidence
          ≤ p.2.confidence))
        = (flatRules pats).find? (fun p => p.2.test msg
          && decide (p.2.confidence > 0)
          && decide (maxMatchConf msg 0 (flatRules pats)
            ≤ p.2.confidence)) := by
      rw [matchingRules, find?_filter_eq]
      refine find?_congr_mem _ _ (flatRules pats) fun p hp => ?_
      rw [decide_eq_true (hpos p hp), hconf]
      cases hpt : p.2.test msg <;> rfl
    rw [hrhs]
    cases (flatRules pats).find? (fun p => p.2.test msg
        && decide (p.2.confidence > 0)
        && decide (maxMatchConf msg 0 (flatRules pats)
          ≤ p.2.confidence)) with
    | some q => rfl
    | none => rfl
  refine ⟨?_, hpatterns, hbound, ?_, ?_, hfind⟩
  · show decide (((flatRules pats).foldl (checkStep msg)
      ([], 0, none)).1.length > 0) = true ↔ _
    rw [decide_eq_true_iff]
    constructor
    · intro hlen hnil
      have : (PatternMatcher.check pats msg).patterns = [] := by
        rw [hpatterns, hnil]; rfl
      have hz : ((flatRules pats).foldl (checkStep msg)
          ([], 0, none)).1 = [] := this
      rw [hz] at hlen
      exact absurd hlen (by norm_num)
    · intro hne
      have hlist : (PatternMatcher.check pats msg).patterns
          = (matchingRules pats msg).map fun p => p.2.description :=
        hpatterns
      have : ((flatRules pats).foldl (checkStep msg) ([], 0, none)).1
          = (matchingRules pats msg).map fun p => p.2.description := hlist
      rw [this, List.length_map]
      exact List.length_pos.mpr hne
  · intro hnil
    have hnomatch : ∀ q ∈ flatRules pats, ¬ q.2.test msg = true := by
      intro q hq htq
      have : q ∈ matchingRules pats msg :=
        List.mem_filter.mpr ⟨hq, htq⟩
      rw [hnil] at this
      cases this
    have hM0 : maxMatchConf msg 0 (flatRules pats) = 0 := by
      rcases maxMatchConf_attained msg (flatRules pats) 0 with h | hex
      · exact h
      · obtain ⟨q, hq, htq, _⟩ := hex
        exact absurd htq (hnomatch q hq)
    constructor
    · rw [hconf, hM0]
    · rw [hcat]
      have : (flatRules pats).find? (fun p => p.2.test msg
          && decide (p.2.confidence > 0)
          && decide (maxMatchConf msg 0 (flatRules pats)
            ≤ p.2.confidence)) = none := by
        rw [List.find?_eq_none]
        intro q hq hpred
        simp only [Bool.and_eq_true] at hpred
        exact hnomatch q hq hpred.1.1
      rw [this]
  · intro hne
    have hattain : ∃ q0 ∈ matchingRules pats msg,
        maxMatchConf msg 0 (flatRules pats) = q0.2.confidence := by
      rcases maxMatchConf_attained msg (flatRules pats) 0 with h | hex
      · obtain ⟨q, hq⟩ := List.exists_mem_of_ne_nil _ hne
        have hqflat := List.mem_of_mem_filter hq
        have htq := (List.mem_filter.mp hq).2
        have h1 := conf_le_maxMatchConf msg (flatRules pats) 0 q
          hqflat htq
        rw [h] at h1
        exact absurd (lt_of_lt_of_le (hpos q hqflat) h1) (lt_irrefl 0)
      · obtain ⟨q, hq, htq, hval⟩ := hex
        exact ⟨q, List.mem_filter.mpr ⟨hq, htq⟩, hval⟩
    obtain ⟨q0, hq0, hval0⟩ := hattain
    have hsome : ((matchingRules pats msg).find? fun p =>
        decide ((PatternMatcher.check pats msg).confidence
          ≤ p.2.confidence)).isSome := by
      rw [List.find?_isSome]
      exact ⟨q0, hq0, decide_eq_true (by rw [hconf, hval0])⟩
    obtain ⟨qf, hqf⟩ := Option.isSome_iff_exists.mp hsome
    have hqfmem := List.mem_of_find?_eq_some hqf
    have hqfpred := List.find?_some hqf
    have hqfge : (PatternMatcher.check pats msg).confidence
        ≤ qf.2.confidence := of_decide_eq_true hqfpred
    have hqfle := hbound qf hqfmem
    refine ⟨qf, hqfmem, le_antisymm hqfge hqfle, ?_⟩
    rw [hfind, hqf]
    rfl

/-- **C7 (amended) witness.** On `tiedPats` both rules match `"you win"`
at confidence 0.5; the first rule at the tied maximum wins, so the
category is `catA`, in agreement with the first-reaching-the-maximum
search. -/
theorem c7_check_highest_confidence_witness :
    (PatternMatcher.check tiedPats "you win").category
      = ((matchingRules tiedPats "you win").find? fun p =>
          decide ((PatternMatcher.check tiedPats "you win").confidence
            ≤ p.2.confidence)).map Prod.fst ∧
    (PatternMatcher.check tiedPats "you win").category = some "catA" ∧
    (PatternMatcher.check tiedPats "you win").confidence = 1/2 := by
  have hpos : ∀ p ∈ flatRules tiedPats, 0 < p.2.confidence := by
    intro p hp
    simp [flatRules, tiedPats] at hp
    rcases hp with h | h <;> rw [h] <;> norm_num
  refine ⟨(c7_check_highest_confidence tiedPats "you win" hpos).2.2.2.2.2,
    ?_, ?_⟩
  · show ((flatRules tiedPats).foldl (checkStep "you win")
      ([], 0, none)).2.2 = some "catA"
    simp +decide [tiedPats, flatRules, checkStep, strContains,
      listContainsSub, List.isPrefixOf]
  · show ((flatRules tiedPats).foldl (checkStep "you win")
      ([], 0, none)).2.1 = 1/2
    simp +decide [tiedPats, flatRules, checkStep, strContains,
      listContainsSub, List.isPrefixOf]

end ScamDetection
